import Mathlib

/-!
Shallow embedding of the proposal-tracking and reminder-scheduling engine
of `src/governance-bot.py`.

Modelling conventions:
* Instants and durations are exact rationals, in Unix seconds
  (`timedelta(hours=h)` becomes `3600 * h`).
* Python dicts become insertion-ordered association lists
  (`List (String × β)`); dict keys are unique in every reachable state,
  matching Python semantics.
* The three persisted records (`user_preferences.json`,
  `proposal_id_map.json`, `known_snapshot_proposals.json`), the in-memory
  `SCHEDULED_JOBS` table, the telegram job queue and the log of sent chat
  messages are bundled into one `BotState`; `load_...`/`save_...` pairs
  become reads/writes of the corresponding field.
* `uuid.uuid4()[:8]` is modelled by an explicit `fresh_short_id` argument.
* Exceptions that the Python code can raise (AttributeError in
  `get_reminder_intervals`, IndexError on a missing callback parameter)
  are modelled with `Except String`.
-/

namespace GovBot

abbrev ChatId := String
abbrev ProposalId := String
abbrev Time := ℚ

/-- Association-list lookup: first match wins, like a Python dict
(whose keys are unique). -/
def alookup {β : Type} : List (String × β) → String → Option β
  | [], _ => none
  | (k, v) :: rest, key => if k = key then some v else alookup rest key

/-- `d[key] = v`: replace the value at `key` in place, else append
(insertion order preserved, as in a Python dict). -/
def aupdate {β : Type} : List (String × β) → String → β → List (String × β)
  | [], key, v => [(key, v)]
  | (k, w) :: rest, key, v =>
      if k = key then (k, v) :: rest else (k, w) :: aupdate rest key v

/-- `del d[key]`: Python dict keys are unique, so dropping every pair with
this key is the deletion of the single entry. -/
def aerase {β : Type} (l : List (String × β)) (key : String) : List (String × β) :=
  l.filter (fun kv => kv.1 ≠ key)

/-- Two-level lookup with Python `.get(k, \x7b\x7d)` defaults at each level. -/
def alookup2 {β : Type} (l : List (String × List (String × β))) (k1 k2 : String) :
    Option β :=
  (alookup l k1).bind (fun inner => alookup inner k2)

/-- A value stored under `preferences["reminders"][chat_id][proposal_id]`:
`None`, the literal `"voted"`, an ISO instant ("next reminder due"), or a
dict carrying user-configured offsets (read by `get_reminder_intervals`). -/
inductive PrefValue where
  | null : PrefValue
  | voted : PrefValue
  | remindAt (t : Time) : PrefValue
  | config (from_start : Option (List ℚ)) (before_end : Option (List ℚ)) : PrefValue
deriving DecidableEq

abbrev Preferences := List (ChatId × List (ProposalId × PrefValue))

/-- One inline keyboard button; the callback payload
`action|short_id[|param]` is kept structurally. -/
structure InlineButton where
  label : String
  callback_action : String
  callback_short_id : String
  callback_param : Option ℚ
deriving DecidableEq

/-- One `job_queue.run_once` handle, tagged with the `data` tuple
`(chat_id, proposal_id, message_text, buttons)` passed at scheduling time.
`removed` is set by `job.schedule_removal()`. -/
structure ScheduledJob where
  id : Nat
  chat_id : ChatId
  proposal_id : ProposalId
  fire_when : Time
  message_text : String
  buttons : List (List InlineButton)
  removed : Bool
deriving DecidableEq

/-- The values read from `config.ini` at startup. -/
structure Config where
  reminders_from_start : List ℚ
  reminders_before_end : List ℚ
  button_reminder_times : List ℚ
  snapshot_space : String
  base_url : String
  chain_prefix : String
  frontend_display_contract_address : String
deriving DecidableEq

/-- The whole observable state of the bot process. -/
structure BotState where
  /-- contents of `user_preferences.json` (the `"reminders"` dict). -/
  preferences : Preferences
  /-- contents of `proposal_id_map.json` (`proposal_id → short_id`). -/
  proposal_id_map : List (ProposalId × String)
  /-- contents of `known_snapshot_proposals.json` (a set of ids). -/
  known_proposals : List ProposalId
  /-- the in-memory `SCHEDULED_JOBS` dict: `chat_id → proposal_id → [job]`
  (jobs referenced by id). -/
  scheduled_jobs : List (ChatId × List (ProposalId × List Nat))
  /-- the pending jobs of the telegram job queue. -/
  jobs : List ScheduledJob
  /-- allocator for fresh job ids. -/
  next_job_id : Nat
  /-- log of `bot.send_message(chat_id, text)` calls, oldest first. -/
  sent : List (ChatId × String)
deriving DecidableEq

/-- Render a rational the way the embedding prints config hours
(labels only; no claim depends on the exact rendering). -/
def ratStr (q : ℚ) : String :=
  if q.den = 1 then toString q.num else toString q.num ++ "/" ++ toString q.den

/-- Python `int()` on a rational: truncation toward zero. -/
def pyInt (q : ℚ) : Int := Int.tdiv q.num (q.den : Int)

/-- `bot.send_message` (the transport itself is an external collaborator;
a send is recorded in the log). -/
def send_message (s : BotState) (chat_id : ChatId) (text : String) : BotState :=
  { s with sent := s.sent ++ [(chat_id, text)] }

/-- `create_inline_buttons`: one "I have already voted" row, then one
"Remind me in H hour(s)" row per configured button reminder time. -/
def create_inline_buttons (cfg : Config) (short_id : String) :
    List (List InlineButton) :=
  [[{ label := "I have already voted", callback_action := "voted",
      callback_short_id := short_id, callback_param := none }]] ++
    cfg.button_reminder_times.map (fun hours =>
      [{ label := "Remind me in " ++ ratStr hours ++ " hour(s)",
         callback_action := "remind_in", callback_short_id := short_id,
         callback_param := some hours }])

/-- `{v: k for k, v in proposal_id_map.items()}` followed by a lookup:
with duplicate short ids the later map entry would win, hence the
reversal before the first-match lookup. -/
def short_to_proposal_id (m : List (ProposalId × String)) (short_id : String) :
    Option ProposalId :=
  alookup ((m.map (fun kv => (kv.2, kv.1))).reverse) short_id

/-- `cancel_scheduled_reminders(chat_id, proposal_id)`: for every job
tracked for the pair that is not yet removed, call `schedule_removal`,
then delete the pair's entry from `SCHEDULED_JOBS`. No-op when the pair
is not tracked. -/
def cancel_scheduled_reminders (s : BotState) (chat_id : ChatId)
    (proposal_id : ProposalId) : BotState :=
  match alookup s.scheduled_jobs chat_id with
  | none => s
  | some inner =>
    match alookup inner proposal_id with
    | none => s
    | some jobIds =>
        { s with
          jobs := s.jobs.map (fun j =>
            if decide (j.id ∈ jobIds) && !j.removed then
              { j with removed := true } else j),
          scheduled_jobs :=
            aupdate s.scheduled_jobs chat_id (aerase inner proposal_id) }

/-- `get_reminder_intervals(chat_id, proposal_id)`: per-user offsets when
the stored value is a dict, the global defaults when the pair is absent;
a stored `None`/string value raises `AttributeError` on `.get`. -/
def get_reminder_intervals (cfg : Config) (prefs : Preferences)
    (chat_id : ChatId) (proposal_id : ProposalId) :
    Except String (List ℚ × List ℚ) :=
  match alookup2 prefs chat_id proposal_id with
  | none => .ok (cfg.reminders_from_start, cfg.reminders_before_end)
  | some (.config fs be) =>
      .ok (fs.getD cfg.reminders_from_start, be.getD cfg.reminders_before_end)
  | some _ => .error "AttributeError"

/-- The proposal link built in `schedule_reminders`. -/
def proposal_link (cfg : Config) (proposal_id : ProposalId)
    (proposal_type : String) : String :=
  if proposal_type = "snapshot" then
    "https://snapshot.org/#/" ++ cfg.snapshot_space ++ "/proposal/" ++ proposal_id
  else if proposal_type = "on-chain" then
    cfg.base_url ++ proposal_id ++ "?dao=" ++ cfg.chain_prefix ++ ":" ++
      cfg.frontend_display_contract_address
  else ""

/-- Message text of a from-start reminder. -/
def start_message_text (title proposal_id link : String) : String :=
  "Voting has started for proposal \x27<b>" ++ title ++
    "</b>\x27. Don\x27t forget to vote!\n\n" ++
  "Proposal ID: <code>" ++ proposal_id ++ "</code>\n" ++
  "<a href=\x27" ++ link ++ "\x27>View Proposal</a>"

/-- Message text of a before-end reminder (`minutes_left = int(h * 60)`). -/
def end_message_text (title proposal_id link : String) (minutes_left : Int) :
    String :=
  toString minutes_left ++ " minutes left to vote on proposal \x27" ++ title ++
    "\x27. Don\x27t miss out!\n\n" ++
  "Proposal ID: " ++ proposal_id ++ "\n" ++
  "[View Proposal](" ++ link ++ ")"

/-- Message text used by the `remind_in` button branch (the code puts the
raw `proposal_id` in the title slot). -/
def remind_in_message_text (proposal_id : ProposalId) : String :=
  "Reminder: Time to vote on \x27<b>" ++ proposal_id ++ "</b>\x27!\n\n" ++
  "Proposal ID: <code>" ++ proposal_id ++ "</code>\n"

/-- `job_queue.run_once(send_reminder_message, when, data=...)`: append a
pending job and return its handle. -/
def run_once (s : BotState) (fire_when : Time) (chat_id : ChatId)
    (proposal_id : ProposalId) (message_text : String)
    (buttons : List (List InlineButton)) : BotState × Nat :=
  let job : ScheduledJob :=
    { id := s.next_job_id, chat_id := chat_id, proposal_id := proposal_id,
      fire_when := fire_when, message_text := message_text,
      buttons := buttons, removed := false }
  ({ s with jobs := s.jobs ++ [job], next_job_id := s.next_job_id + 1 },
   s.next_job_id)

/-- The `SCHEDULED_JOBS` tracking idiom: `setdefault`-style creation of the
two levels followed by `append(job)`. -/
def track_job (s : BotState) (chat_id : ChatId) (proposal_id : ProposalId)
    (jid : Nat) : BotState :=
  let inner := (alookup s.scheduled_jobs chat_id).getD []
  let ids := (alookup inner proposal_id).getD []
  let tbl := aupdate s.scheduled_jobs chat_id (aupdate inner proposal_id (ids ++ [jid]))
  { s with scheduled_jobs := tbl }

/-- `SCHEDULED_JOBS[str(chat_id)][proposal_id] = []` at the top of
`schedule_reminders`. -/
def reset_pair_jobs (s : BotState) (chat_id : ChatId)
    (proposal_id : ProposalId) : BotState :=
  let inner := (alookup s.scheduled_jobs chat_id).getD []
  let tbl := aupdate s.scheduled_jobs chat_id (aupdate inner proposal_id [])
  { s with scheduled_jobs := tbl }

/-- The two `for` loops of `schedule_reminders`, which differ only in the
fire-time formula and the message text: skip any computed time strictly
before `now`, otherwise register and track one job. -/
def schedule_loop (cfg : Config) (now : Time) (chat_id : ChatId)
    (proposal_id : ProposalId) (short_id : String)
    (mk_when : ℚ → Time) (mk_msg : ℚ → String) :
    List ℚ → BotState → BotState
  | [], s => s
  | h :: rest, s =>
      let fire_when := mk_when h
      if fire_when < now then
        schedule_loop cfg now chat_id proposal_id short_id mk_when mk_msg rest s
      else
        let buttons := create_inline_buttons cfg short_id
        let p := run_once s fire_when chat_id proposal_id (mk_msg h) buttons
        schedule_loop cfg now chat_id proposal_id short_id mk_when mk_msg rest
          (track_job p.1 chat_id proposal_id p.2)

/-- `schedule_reminders(app, chat_id, proposal_id, short_id, title,
start_time, end_time, proposal_type)`. -/
def schedule_reminders (cfg : Config) (now : Time) (s : BotState)
    (chat_id : ChatId) (proposal_id : ProposalId) (short_id title : String)
    (start_time end_time : Time) (proposal_type : String) :
    Except String BotState :=
  match get_reminder_intervals cfg s.preferences chat_id proposal_id with
  | .error e => .error e
  | .ok iv =>
      let link := proposal_link cfg proposal_id proposal_type
      let s := reset_pair_jobs s chat_id proposal_id
      let s := schedule_loop cfg now chat_id proposal_id short_id
          (fun h => start_time + 3600 * h)
          (fun _ => start_message_text title proposal_id link) iv.1 s
      let s := schedule_loop cfg now chat_id proposal_id short_id
          (fun h => end_time - 3600 * h)
          (fun h => end_message_text title proposal_id link (pyInt (h * 60)))
          iv.2 s
      .ok s

/-- `preferences["reminders"].setdefault(str(chat_id), \x7b\x7d)[proposal_id] = v`. -/
def set_pref (prefs : Preferences) (chat_id : ChatId)
    (proposal_id : ProposalId) (v : PrefValue) : Preferences :=
  let inner := (alookup prefs chat_id).getD []
  aupdate prefs chat_id (aupdate inner proposal_id v)

def generic_error_text : String := "An error occurred. Please try again later."

/-- The outcome of `query.answer(...)` for one callback. -/
structure CallbackResult where
  answered : Bool
  answer_text : Option String
deriving DecidableEq

/-- `button_callback`: the inbound payload `action|short_id[|param]`
arrives split, with numeric params pre-parsed (`float(data[2])` on a
missing param is the IndexError case). -/
def button_callback (cfg : Config) (now : Time) (s : BotState)
    (chat_id : ChatId) (action short_id : String) (params : List ℚ) :
    Except String (BotState × CallbackResult) :=
  match short_to_proposal_id s.proposal_id_map short_id with
  | none =>
      .ok (s, { answered := true, answer_text := some generic_error_text })
  | some proposal_id =>
      if action = "voted" then
        let s := { s with
          preferences := set_pref s.preferences chat_id proposal_id .voted }
        let s := cancel_scheduled_reminders s chat_id proposal_id
        let s := send_message s chat_id
          "<b>Thanks for voting!</b> No more reminders for this vote."
        .ok (s, { answered := true, answer_text := none })
      else if action = "remind_in" then
        match params with
        | [] => .error "IndexError"
        | remind_in_hours :: _ =>
          let next_reminder_time := now + 3600 * remind_in_hours
          let s := { s with
            preferences := set_pref s.preferences chat_id proposal_id
              (.remindAt next_reminder_time) }
          let buttons := create_inline_buttons cfg short_id
          let p := run_once s next_reminder_time chat_id proposal_id
            (remind_in_message_text proposal_id) buttons
          let s := track_job p.1 chat_id proposal_id p.2
          let s := send_message s chat_id
            ("<b>Reminder set</b> for " ++ ratStr remind_in_hours ++
              " hours from now.")
          .ok (s, { answered := true, answer_text := none })
      else
        .ok (s, { answered := true, answer_text := none })

/-- The per-chat loop of `handle_new_proposal`: iterate the chat keys of
the loaded preferences; a chat without an entry for this proposal gets the
entry set to `None` in the in-memory dict (saved only after the loop) and
its reminders scheduled (against the still-unsaved persisted state). -/
def handle_loop (cfg : Config) (now : Time) (proposal_id : ProposalId)
    (short_id title : String) (start_time end_time : Time)
    (proposal_type : String) :
    List ChatId → Preferences → BotState → Except String (Preferences × BotState)
  | [], prefs, s => .ok (prefs, s)
  | chat :: rest, prefs, s =>
      let inner := (alookup prefs chat).getD []
      match alookup inner proposal_id with
      | some _ =>
          handle_loop cfg now proposal_id short_id title start_time end_time
            proposal_type rest prefs s
      | none =>
          match schedule_reminders cfg now s chat proposal_id short_id title
              start_time end_time proposal_type with
          | .error e => .error e
          | .ok s9 =>
              handle_loop cfg now proposal_id short_id title start_time
                end_time proposal_type rest
                (aupdate prefs chat (aupdate inner proposal_id .null)) s9

/-- `handle_new_proposal(proposal_id, title, start_time, end_time, app,
proposal_type)`; `fresh_short_id` stands for `str(uuid.uuid4())[:8]`. -/
def handle_new_proposal (cfg : Config) (now : Time) (fresh_short_id : String)
    (s : BotState) (proposal_id : ProposalId) (title : String)
    (start_time end_time : Time) (proposal_type : String) :
    Except String BotState :=
  let prefs := s.preferences
  let m := s.proposal_id_map
  let ms :=
    match alookup m proposal_id with
    | none => (aupdate m proposal_id fresh_short_id, fresh_short_id)
    | some sid => (m, sid)
  match handle_loop cfg now proposal_id ms.2 title start_time end_time
      proposal_type (prefs.map Prod.fst) prefs
      { s with proposal_id_map := ms.1 } with
  | .error e => .error e
  | .ok r => .ok { r.2 with preferences := r.1 }

/-- Set insertion for the known-proposal set. -/
def insert_known (l : List ProposalId) (proposal_id : ProposalId) :
    List ProposalId :=
  if proposal_id ∈ l then l else l ++ [proposal_id]

/-- One proposal delivered by the Snapshot poller: skip when already
known, else add to the known set (persisted immediately) and handle. -/
def process_snapshot_event (cfg : Config) (now : Time)
    (fresh_short_id : String) (s : BotState) (proposal_id : ProposalId)
    (title : String) (start_ts end_ts : Time) : Except String BotState :=
  if proposal_id ∈ s.known_proposals then .ok s
  else
    handle_new_proposal cfg now fresh_short_id
      { s with known_proposals := insert_known s.known_proposals proposal_id }
      proposal_id title start_ts end_ts "snapshot"

/-- One event delivered by the on-chain poller: no known-set check;
`end_time` is estimated from the remaining blocks at 12 s per block,
`start_time = now`. -/
def process_onchain_event (cfg : Config) (now : Time)
    (fresh_short_id : String) (s : BotState) (proposal_id : ProposalId)
    (voting_end_block current_block : Int) : Except String BotState :=
  let blocks_remaining : Int := voting_end_block - current_block
  let end_time : Time := now + (blocks_remaining : ℚ) * 12
  let start_time : Time := now
  let title := "On-Chain Proposal " ++ proposal_id
  handle_new_proposal cfg now fresh_short_id s proposal_id title start_time
    end_time "on-chain"

/-- The `/start` command: register the chat when absent (and persist),
then send the confirmation either way. -/
def start_cmd (s : BotState) (chat_id : ChatId) : BotState :=
  match alookup s.preferences chat_id with
  | none =>
      send_message { s with preferences := aupdate s.preferences chat_id [] }
        chat_id "<b>You\x27ve been added to the reminder list</b> for DAO votes!"
  | some _ =>
      send_message s chat_id
        "<b>You\x27ve been added to the reminder list</b> for DAO votes!"

/-- The job queue executing a pending, not-removed job: the callback
`send_reminder_message` sends the message stored in `job.data` and touches
nothing else; the queue stops tracking the executed job, `SCHEDULED_JOBS`
is left as it was. -/
def fire_job (s : BotState) (jid : Nat) : BotState :=
  match s.jobs.find? (fun j => j.id == jid) with
  | none => s
  | some j =>
      if j.removed then s
      else
        send_message { s with jobs := s.jobs.filter (fun j2 => j2.id != jid) }
          j.chat_id j.message_text

/-- The job ids tracked in `SCHEDULED_JOBS` for a pair. -/
def tracked_job_ids (s : BotState) (chat_id : ChatId)
    (proposal_id : ProposalId) : List Nat :=
  (alookup2 s.scheduled_jobs chat_id proposal_id).getD []

/-- A job id can still fire: it is pending in the queue and not removed. -/
def can_fire (s : BotState) (jid : Nat) : Bool :=
  ((s.jobs.find? (fun j => j.id == jid)).map (fun j => !j.removed)).getD false

/-- The live jobs of a pair: tracked ids whose queue entry can still fire. -/
def live_job_ids (s : BotState) (chat_id : ChatId)
    (proposal_id : ProposalId) : List Nat :=
  (tracked_job_ids s chat_id proposal_id).filter (fun jid => can_fire s jid)

/-- Modelled from the spec (refinement comparison only): the fire-time set as §4.4/§8 phrase it —
`\x7bstart_time + h\x7d ∪ \x7bend_time − h\x7d` restricted to future
times, i.e. any time `≤ now` dropped. Compared against the times the code
actually registers. -/
def spec_fire_times (from_start before_end : List ℚ)
    (start_time end_time now : Time) : List Time :=
  ((from_start.map (fun h => start_time + 3600 * h)) ++
    (before_end.map (fun h => end_time - 3600 * h))).filter
      (fun t => decide (now < t))

/-! ### Concrete fixtures used by counterexamples and witnesses -/

/-- A small `config.ini`: default offsets `from_start = [0]`,
`before_end = []`, one snooze button of 2 hours. -/
def cfgA : Config :=
  { reminders_from_start := [0], reminders_before_end := [],
    button_reminder_times := [2], snapshot_space := "dao",
    base_url := "https://app.example/proposals/", chain_prefix := "eth",
    frontend_display_contract_address := "0xFrontend" }

/-- Default offsets `from_start = [1, 2]` (hours), `before_end = []`. -/
def cfgB : Config :=
  { cfgA with reminders_from_start := [1, 2] }

/-- Default offsets `from_start = []`, `before_end = [1]` (hours). -/
def cfgC : Config :=
  { cfgA with reminders_from_start := [], reminders_before_end := [1] }

/-- A pending job for subscriber `"42"` and proposal `"p1"`. -/
def mkJob (i : Nat) (t : Time) : ScheduledJob :=
  { id := i, chat_id := "42", proposal_id := "p1", fire_when := t,
    message_text := "reminder text", buttons := [], removed := false }

/-- Subscriber `"42"` is registered, proposal `"p1"` is known with short id
`"abcd1234"`, and two live jobs (ids 0 and 1) are scheduled and tracked for
the pair. -/
def s_twoJobs : BotState :=
  { preferences := [("42", [("p1", .null)])],
    proposal_id_map := [("p1", "abcd1234")],
    known_proposals := ["p1"],
    scheduled_jobs := [("42", [("p1", [0, 1])])],
    jobs := [mkJob 0 5000, mkJob 1 6000],
    next_job_id := 2, sent := [] }

/-- A state with no subscribers, no proposals, no jobs. -/
def s_empty : BotState :=
  { preferences := [], proposal_id_map := [], known_proposals := [],
    scheduled_jobs := [], jobs := [], next_job_id := 0, sent := [] }

/-- One live tracked job (id 0) for the pair `("42", "p1")`. -/
def s_oneJob : BotState :=
  { preferences := [("42", [("p1", .null)])],
    proposal_id_map := [("p1", "abcd1234")],
    known_proposals := ["p1"],
    scheduled_jobs := [("42", [("p1", [0])])],
    jobs := [mkJob 0 5000],
    next_job_id := 1, sent := [] }

/-- Extract the state of a successful callback run. -/
def okStateCb (e : Except String (BotState × CallbackResult)) (d : BotState) :
    BotState :=
  match e with
  | .ok r => r.1
  | .error _ => d

/-- Extract the state of a successful scheduling run. -/
def okState (e : Except String BotState) (d : BotState) : BotState :=
  match e with
  | .ok r => r
  | .error _ => d

/-- State reached after a first on-chain delivery of proposal `"7"` at
`now = 1000` with no subscribers registered. -/
def c3_after_first : BotState :=
  okState (process_onchain_event cfgA 1000 "aaaa1111" s_empty "7" 100 50)
    s_empty

/-- ... and subscriber `"42"` then sends `/start`. -/
def c3_subscribed : BotState := start_cmd c3_after_first "42"


/-! ### Association-list lemmas -/

theorem alookup_aupdate_self {β : Type} (l : List (String × β)) (k : String)
    (v : β) : alookup (aupdate l k v) k = some v := by
  induction l with
  | nil => simp [aupdate, alookup]
  | cons kv rest ih =>
      obtain ⟨k0, w⟩ := kv
      by_cases h : k0 = k
      · subst h; simp [aupdate, alookup]
      · simp [aupdate, alookup, h, ih]

theorem alookup_aupdate_ne {β : Type} (l : List (String × β)) (k k2 : String)
    (v : β) (h : k2 ≠ k) : alookup (aupdate l k v) k2 = alookup l k2 := by
  induction l with
  | nil => simp [aupdate, alookup, Ne.symm h]
  | cons kv rest ih =>
      obtain ⟨k0, w⟩ := kv
      by_cases h0 : k0 = k
      · subst h0; simp [aupdate, alookup, Ne.symm h]
      · simp [aupdate, alookup, h0, ih]

theorem alookup_aerase_self {β : Type} (l : List (String × β)) (k : String) :
    alookup (aerase l k) k = none := by
  induction l with
  | nil => simp [aerase, alookup]
  | cons kv rest ih =>
      obtain ⟨k0, w⟩ := kv
      by_cases h : k0 = k
      · simpa [aerase, List.filter_cons, h] using ih
      · simpa [aerase, List.filter_cons, h, alookup] using ih

/-! ### Frame lemmas of the small state operations -/

theorem track_job_jobs (s : BotState) (c : ChatId) (p : ProposalId) (j : Nat) :
    (track_job s c p j).jobs = s.jobs := rfl

theorem track_job_preferences (s : BotState) (c : ChatId) (p : ProposalId)
    (j : Nat) : (track_job s c p j).preferences = s.preferences := rfl

theorem track_job_map (s : BotState) (c : ChatId) (p : ProposalId) (j : Nat) :
    (track_job s c p j).proposal_id_map = s.proposal_id_map := rfl

theorem track_job_known (s : BotState) (c : ChatId) (p : ProposalId) (j : Nat) :
    (track_job s c p j).known_proposals = s.known_proposals := rfl

theorem track_job_sent (s : BotState) (c : ChatId) (p : ProposalId) (j : Nat) :
    (track_job s c p j).sent = s.sent := rfl

theorem track_job_next (s : BotState) (c : ChatId) (p : ProposalId) (j : Nat) :
    (track_job s c p j).next_job_id = s.next_job_id := rfl

theorem tracked_job_ids_track_job (s : BotState) (c : ChatId) (p : ProposalId)
    (jid : Nat) :
    tracked_job_ids (track_job s c p jid) c p = tracked_job_ids s c p ++ [jid] := by
  unfold tracked_job_ids track_job alookup2
  cases h1 : alookup s.scheduled_jobs c with
  | none => simp [h1, alookup_aupdate_self, alookup]
  | some inner =>
      cases h2 : alookup inner p with
      | none => simp [h1, h2, alookup_aupdate_self]
      | some ids => simp [h1, h2, alookup_aupdate_self]

theorem tracked_job_ids_reset (s : BotState) (c : ChatId) (p : ProposalId) :
    tracked_job_ids (reset_pair_jobs s c p) c p = [] := by
  unfold tracked_job_ids reset_pair_jobs alookup2
  simp [alookup_aupdate_self]

theorem reset_pair_jobs_jobs (s : BotState) (c : ChatId) (p : ProposalId) :
    (reset_pair_jobs s c p).jobs = s.jobs := rfl

theorem reset_pair_jobs_preferences (s : BotState) (c : ChatId)
    (p : ProposalId) : (reset_pair_jobs s c p).preferences = s.preferences := rfl

theorem reset_pair_jobs_map (s : BotState) (c : ChatId) (p : ProposalId) :
    (reset_pair_jobs s c p).proposal_id_map = s.proposal_id_map := rfl

theorem reset_pair_jobs_known (s : BotState) (c : ChatId) (p : ProposalId) :
    (reset_pair_jobs s c p).known_proposals = s.known_proposals := rfl

theorem reset_pair_jobs_sent (s : BotState) (c : ChatId) (p : ProposalId) :
    (reset_pair_jobs s c p).sent = s.sent := rfl

theorem reset_pair_jobs_next (s : BotState) (c : ChatId) (p : ProposalId) :
    (reset_pair_jobs s c p).next_job_id = s.next_job_id := rfl

theorem alookup2_set_pref_self (prefs : Preferences) (c : ChatId)
    (p : ProposalId) (v : PrefValue) :
    alookup2 (set_pref prefs c p v) c p = some v := by
  unfold alookup2 set_pref
  simp [alookup_aupdate_self]

/-! ### C1 -/

/-- C1 counterexample: in a state with two live jobs for the pair
`("42", "p1")`, the interaction "remind me in 2 hours" leaves three live
jobs — the `remind_in` branch of `button_callback` never cancels the
existing jobs, so afterwards the pair does not have exactly one live job
as the claim states. -/
theorem C1_counterexample :
    (button_callback cfgA 1000 s_twoJobs "42" "remind_in" "abcd1234" [2]).map
      (fun r => live_job_ids r.1 "42" "p1") = .ok [0, 1, 2] ∧
    ([0, 1, 2] : List Nat).length ≠ 1 :=
  ⟨by with_unfolding_all rfl, by decide⟩

/-! ### C2 -/

/-- C2 counterexample: with default offset `from_start = [0]` and
`start_time = now = 1000`, the computed fire time equals `now`, yet
`schedule_reminders` registers a job at it — the code drops only times
strictly less than `now` (`when < now`), so a computed time exactly equal
to `now` does produce a job, contradicting the claim. -/
theorem C2_counterexample :
    (schedule_reminders cfgA 1000 s_empty "42" "p1" "abcd1234" "T" 1000 2000
        "snapshot").map (fun s => s.jobs.map (fun j => j.fire_when)) =
      .ok [1000] ∧
    (schedule_reminders cfgA 1000 s_empty "42" "p1" "abcd1234" "T" 1000 2000
        "snapshot").map (fun s => s.jobs.length) = .ok 1 ∧
    (1 : Nat) ≠ 0 :=
  ⟨by with_unfolding_all rfl, by with_unfolding_all rfl, by decide⟩

/-! ### C3 -/

/-- C3 counterexample: the on-chain monitor performs no known-set check,
so a second delivery of proposal `"7"` is not a no-op: after subscriber
`"42"` registers between the two deliveries (zero jobs exist at that
point), the second delivery schedules a reminder job for them. -/
theorem C3_counterexample :
    process_onchain_event cfgA 1000 "aaaa1111" s_empty "7" 100 50 =
      .ok c3_after_first ∧
    c3_subscribed.jobs.length = 0 ∧
    (process_onchain_event cfgA 1000 "bbbb2222" c3_subscribed "7" 100 50).map
      (fun s => s.jobs.length) = .ok 1 ∧
    (1 : Nat) ≠ 0 :=
  ⟨by with_unfolding_all rfl, by with_unfolding_all rfl,
   by with_unfolding_all rfl, by decide⟩

/-! ### C6 -/

/-- C6 counterexample: firing the tracked job 0 sends the message content
stored at scheduling time, but the job stays tracked in `SCHEDULED_JOBS`
for its pair — `send_reminder_message` never removes itself from the job
table, contradicting the claim's second half. -/
theorem C6_counterexample :
    (fire_job s_oneJob 0).sent = [("42", "reminder text")] ∧
    tracked_job_ids (fire_job s_oneJob 0) "42" "p1" = [0] ∧
    ([0] : List Nat) ≠ [] :=
  ⟨by with_unfolding_all rfl, by with_unfolding_all rfl, by decide⟩

/-! ### C7 -/

/-- C7 counterexample: with offsets `before_end = [1]`, `end_time = 4600`
and `now = 1000`, the computed time `4600 − 3600 = 1000` is not a future
time, so the spec-phrased set (restricted to future times) is empty, yet
the code registers one job at exactly that time. -/
theorem C7_counterexample :
    (schedule_reminders cfgC 1000 s_empty "42" "p1" "abcd1234" "T" 0 4600
        "snapshot").map (fun s => s.jobs.map (fun j => j.fire_when)) =
      .ok [1000] ∧
    spec_fire_times [] [1] 0 4600 1000 = [] ∧
    ([(1000 : Time)] : List Time) ≠ [] :=
  ⟨by with_unfolding_all rfl, by with_unfolding_all rfl, by simp⟩

/-! ### C8 -/

/-- C8: `get_reminder_intervals` returns the subscriber's configured
from-start and before-end offsets whenever the subscriber has stored
offsets for that proposal, and otherwise the global default offsets from
the configuration. -/
theorem C8_intervals_user_else_default (cfg : Config) (prefs : Preferences)
    (chat_id : ChatId) (proposal_id : ProposalId) :
    (alookup2 prefs chat_id proposal_id = none →
      get_reminder_intervals cfg prefs chat_id proposal_id =
        .ok (cfg.reminders_from_start, cfg.reminders_before_end)) ∧
    (∀ fs be, alookup2 prefs chat_id proposal_id =
        some (.config (some fs) (some be)) →
      get_reminder_intervals cfg prefs chat_id proposal_id = .ok (fs, be)) := by
  constructor
  · intro h
    simp [get_reminder_intervals, h]
  · intro fs be h
    simp [get_reminder_intervals, h]

/-- C8 witness: with no stored entry the defaults of `cfgA` are returned;
with stored offsets `([5], [7])` those are returned. -/
theorem C8_intervals_user_else_default_witness :
    get_reminder_intervals cfgA [] "42" "p1" = .ok ([0], []) ∧
    get_reminder_intervals cfgA
        [("42", [("p1", .config (some [5]) (some [7]))])] "42" "p1" =
      .ok ([5], [7]) :=
  ⟨(C8_intervals_user_else_default cfgA [] "42" "p1").1
      (by with_unfolding_all rfl),
   (C8_intervals_user_else_default cfgA
      [("42", [("p1", .config (some [5]) (some [7]))])] "42" "p1").2 [5] [7]
      (by with_unfolding_all rfl)⟩

/-! ### C9 -/

/-- C9: a button interaction whose short id does not resolve through the
proposal-id map is answered with the generic failure text and leaves the
state unchanged (no crash); an interaction with a known short id is also
always acknowledged (with a plain answer), whatever action it carries —
provided a `remind_in` payload carries its hour parameter. -/
theorem C9_callback_always_acknowledged (cfg : Config) (now : Time)
    (s : BotState) (chat_id : ChatId) (action short_id : String)
    (params : List ℚ) :
    (short_to_proposal_id s.proposal_id_map short_id = none →
      button_callback cfg now s chat_id action short_id params =
        .ok (s, { answered := true, answer_text := some generic_error_text })) ∧
    (∀ pid, short_to_proposal_id s.proposal_id_map short_id = some pid →
      (action = "remind_in" → params ≠ []) →
      (button_callback cfg now s chat_id action short_id params).toOption.map
          (fun r => r.2) =
        some { answered := true, answer_text := none }) := by
  constructor
  · intro h
    simp [button_callback, h]
  · intro pid h hp
    by_cases hv : action = "voted"
    · subst hv
      simp only [button_callback, h]
      rfl
    · by_cases hr : action = "remind_in"
      · subst hr
        cases params with
        | nil => simp at hp
        | cons H ps =>
            simp only [button_callback, h, if_neg hv, if_pos rfl]
            rfl
      · simp only [button_callback, h, if_neg hv, if_neg hr]
        rfl

/-- C9 witness: an unknown short id `"zzzz"` is answered with the generic
error text and changes nothing; a known `remind_in` interaction is
acknowledged with a plain answer. -/
theorem C9_callback_always_acknowledged_witness :
    button_callback cfgA 1000 s_twoJobs "42" "voted" "zzzz" [] =
      .ok (s_twoJobs,
        { answered := true, answer_text := some generic_error_text }) ∧
    (button_callback cfgA 1000 s_twoJobs "42" "remind_in" "abcd1234"
        [2]).toOption.map (fun r => r.2) =
      some { answered := true, answer_text := none } :=
  ⟨(C9_callback_always_acknowledged cfgA 1000 s_twoJobs "42" "voted" "zzzz"
      []).1 (by with_unfolding_all rfl),
   (C9_callback_always_acknowledged cfgA 1000 s_twoJobs "42" "remind_in"
      "abcd1234" [2]).2 "p1" (by with_unfolding_all rfl)
      (fun _ h => by simp at h)⟩

/-! ### C10 -/

/-- C10: the `/start` command is idempotent — for a chat id that is
already registered, the persisted subscriber preferences are left
unchanged; in particular the existing per-proposal reminder states are
not reset. -/
theorem C10_start_subscribe_idempotent (s : BotState) (chat_id : ChatId)
    (m : List (ProposalId × PrefValue))
    (h : alookup s.preferences chat_id = some m) :
    (start_cmd s chat_id).preferences = s.preferences ∧
    alookup (start_cmd s chat_id).preferences chat_id = some m := by
  simp [start_cmd, h, send_message]

/-- C10 witness: re-subscribing `"42"`, who already tracks proposal
`"p1"`, keeps the preferences record intact. -/
theorem C10_start_subscribe_idempotent_witness :
    (start_cmd s_twoJobs "42").preferences = s_twoJobs.preferences ∧
    alookup (start_cmd s_twoJobs "42").preferences "42" =
      some [("p1", .null)] :=
  C10_start_subscribe_idempotent s_twoJobs "42" [("p1", .null)]
    (by with_unfolding_all rfl)

/-- C6 amended: a fired job invokes the transport with exactly the message
content stored in its `data` at scheduling time, and leaves the
preferences and the `SCHEDULED_JOBS` table untouched — in particular it
does NOT remove itself from the job table; the stale handle stays tracked
for its pair until a cancellation deletes the pair's entry. -/
theorem C6_fire_sends_but_keeps_table (s : BotState) (jid : Nat)
    (j : ScheduledJob)
    (hfind : s.jobs.find? (fun x => x.id == jid) = some j)
    (hrem : j.removed = false) :
    (fire_job s jid).sent = s.sent ++ [(j.chat_id, j.message_text)] ∧
    (fire_job s jid).scheduled_jobs = s.scheduled_jobs ∧
    (fire_job s jid).preferences = s.preferences ∧
    (fire_job s jid).jobs = s.jobs.filter (fun j2 => j2.id != jid) := by
  simp [fire_job, hfind, hrem, send_message]

/-- C6 witness: firing job 0 of `s_oneJob` sends its stored message text
and leaves the job table exactly as it was. -/
theorem C6_fire_sends_but_keeps_table_witness :
    (fire_job s_oneJob 0).sent =
      s_oneJob.sent ++ [((mkJob 0 5000).chat_id, (mkJob 0 5000).message_text)] ∧
    (fire_job s_oneJob 0).scheduled_jobs = s_oneJob.scheduled_jobs ∧
    (fire_job s_oneJob 0).preferences = s_oneJob.preferences ∧
    (fire_job s_oneJob 0).jobs = s_oneJob.jobs.filter (fun j2 => j2.id != 0) :=
  C6_fire_sends_but_keeps_table s_oneJob 0 (mkJob 0 5000)
    (by with_unfolding_all rfl) rfl

/-! ### Cancellation properties (C5) -/

theorem send_message_scheduled_jobs (s : BotState) (c : ChatId) (t : String) :
    (send_message s c t).scheduled_jobs = s.scheduled_jobs := rfl

theorem send_message_jobs (s : BotState) (c : ChatId) (t : String) :
    (send_message s c t).jobs = s.jobs := rfl

/-- Everything `cancel_scheduled_reminders` guarantees at once: the pair is
no longer tracked, persisted records and the send log are untouched, every
queue job whose id was tracked for the pair is now marked removed, and no
such job can fire any more. -/
theorem cancel_scheduled_reminders_spec (s : BotState) (c : ChatId)
    (p : ProposalId) :
    tracked_job_ids (cancel_scheduled_reminders s c p) c p = [] ∧
    (cancel_scheduled_reminders s c p).preferences = s.preferences ∧
    (cancel_scheduled_reminders s c p).proposal_id_map = s.proposal_id_map ∧
    (cancel_scheduled_reminders s c p).sent = s.sent ∧
    (∀ j ∈ (cancel_scheduled_reminders s c p).jobs,
      j.id ∈ tracked_job_ids s c p → j.removed = true) ∧
    (∀ jid ∈ tracked_job_ids s c p,
      can_fire (cancel_scheduled_reminders s c p) jid = false) := by
  cases h1 : alookup s.scheduled_jobs c with
  | none =>
      have hcs : cancel_scheduled_reminders s c p = s := by
        simp only [cancel_scheduled_reminders, h1]
      have htr : tracked_job_ids s c p = [] := by
        simp [tracked_job_ids, alookup2, h1]
      rw [hcs, htr]
      refine ⟨rfl, rfl, rfl, rfl, ?_, ?_⟩
      · intro j _ hj
        simp at hj
      · intro jid hjid
        simp at hjid
  | some inner =>
      cases h2 : alookup inner p with
      | none =>
          have hcs : cancel_scheduled_reminders s c p = s := by
            simp only [cancel_scheduled_reminders, h1, h2]
          have htr : tracked_job_ids s c p = [] := by
            simp [tracked_job_ids, alookup2, h1, h2]
          rw [hcs, htr]
          refine ⟨rfl, rfl, rfl, rfl, ?_, ?_⟩
          · intro j _ hj
            simp at hj
          · intro jid hjid
            simp at hjid
      | some ids =>
          have hcs : cancel_scheduled_reminders s c p =
              { s with
                jobs := s.jobs.map (fun j =>
                  if decide (j.id ∈ ids) && !j.removed then
                    { j with removed := true } else j),
                scheduled_jobs :=
                  aupdate s.scheduled_jobs c (aerase inner p) } := by
            simp only [cancel_scheduled_reminders, h1, h2]
          have htr : tracked_job_ids s c p = ids := by
            simp [tracked_job_ids, alookup2, h1, h2]
          rw [hcs, htr]
          refine ⟨?_, rfl, rfl, rfl, ?_, ?_⟩
          · simp [tracked_job_ids, alookup2, alookup_aupdate_self,
              alookup_aerase_self]
          · intro j hj hid
            simp only [List.mem_map] at hj
            obtain ⟨j0, _, rfl⟩ := hj
            by_cases hcnd : (decide (j0.id ∈ ids) && !j0.removed) = true
            · simp [hcnd]
            · simp only [Bool.not_eq_true] at hcnd
              simp only [hcnd, if_neg, Bool.false_eq_true,
                not_false_eq_true] at hid ⊢
              have hdec : decide (j0.id ∈ ids) = true := decide_eq_true hid
              rw [hdec, Bool.true_and] at hcnd
              simpa using hcnd
          · intro jid hjid
            unfold can_fire
            have hpred : ((fun x : ScheduledJob => x.id == jid) ∘
                (fun j : ScheduledJob =>
                  if decide (j.id ∈ ids) && !j.removed then
                    { j with removed := true } else j)) =
                (fun x : ScheduledJob => x.id == jid) := by
              funext j0
              simp only [Function.comp]
              by_cases hcnd : (decide (j0.id ∈ ids) && !j0.removed) = true
              · rw [if_pos hcnd]
              · rw [if_neg hcnd]
            simp only [List.find?_map, hpred]
            cases hf : s.jobs.find? (fun x => x.id == jid) with
            | none => simp
            | some j0 =>
                have hj0 := List.find?_some hf
                have hj0id : j0.id = jid := by simpa using hj0
                have hmem : j0.id ∈ ids := hj0id ▸ hjid
                by_cases hrem : j0.removed = true
                · simp [hmem, hrem]
                · simp only [Bool.not_eq_true] at hrem
                  simp [hmem, hrem]

/-- C5: the "I already voted" interaction persists `voted` for the pair,
empties its tracked-job entry, leaves zero live jobs, and no previously
tracked job can fire any more — even at its not-yet-elapsed scheduled
time. (The hypothesis that every pending queue job of the pair is tracked
is the spec's job-table/state consistency invariant.) -/
theorem C5_voted_cancels_all (cfg : Config) (now : Time) (s : BotState)
    (chat_id : ChatId) (short_id : String) (pid : ProposalId)
    (params : List ℚ)
    (hshort : short_to_proposal_id s.proposal_id_map short_id = some pid) :
    ∀ s2 res,
      button_callback cfg now s chat_id "voted" short_id params =
        .ok (s2, res) →
      alookup2 s2.preferences chat_id pid = some .voted ∧
      tracked_job_ids s2 chat_id pid = [] ∧
      live_job_ids s2 chat_id pid = [] ∧
      (∀ jid ∈ tracked_job_ids s chat_id pid, can_fire s2 jid = false) ∧
      (∀ j ∈ s2.jobs, j.id ∈ tracked_job_ids s chat_id pid →
        j.removed = true) := by
  intro s2 res hok
  simp only [button_callback, hshort, if_pos rfl] at hok
  set s1 : BotState :=
    { s with preferences := set_pref s.preferences chat_id pid .voted }
    with hs1
  have hs2 : s2 = send_message (cancel_scheduled_reminders s1 chat_id pid)
      chat_id "<b>Thanks for voting!</b> No more reminders for this vote." := by
    cases hok
    rfl
  have htr1 : tracked_job_ids s1 chat_id pid = tracked_job_ids s chat_id pid :=
    rfl
  obtain ⟨hc1, hc2, hc3, hc4, hc5, hc6⟩ :=
    cancel_scheduled_reminders_spec s1 chat_id pid
  have htr2 : tracked_job_ids s2 chat_id pid = [] := by
    rw [hs2]
    exact hc1
  refine ⟨?_, htr2, ?_, ?_, ?_⟩
  · rw [hs2]
    show alookup2
      (cancel_scheduled_reminders s1 chat_id pid).preferences chat_id pid =
        some .voted
    rw [hc2]
    exact alookup2_set_pref_self s.preferences chat_id pid .voted
  · unfold live_job_ids
    rw [htr2]
    rfl
  · intro jid hjid
    rw [hs2]
    show can_fire (cancel_scheduled_reminders s1 chat_id pid) jid = false
    exact hc6 jid hjid
  · intro j hj hid
    rw [hs2] at hj
    exact hc5 j hj hid

/-- C5 witness: with two live tracked jobs for `("42", "p1")`, the voted
interaction leaves the pair voted, untracked, with zero live jobs, and
neither previously tracked job can fire. -/
theorem C5_voted_cancels_all_witness :
    alookup2 (okStateCb (button_callback cfgA 1000 s_twoJobs "42" "voted"
        "abcd1234" []) s_twoJobs).preferences "42" "p1" = some .voted ∧
    tracked_job_ids (okStateCb (button_callback cfgA 1000 s_twoJobs "42"
        "voted" "abcd1234" []) s_twoJobs) "42" "p1" = [] ∧
    live_job_ids (okStateCb (button_callback cfgA 1000 s_twoJobs "42"
        "voted" "abcd1234" []) s_twoJobs) "42" "p1" = [] ∧
    (∀ jid ∈ tracked_job_ids s_twoJobs "42" "p1",
      can_fire (okStateCb (button_callback cfgA 1000 s_twoJobs "42" "voted"
        "abcd1234" []) s_twoJobs) jid = false) ∧
    (∀ j ∈ (okStateCb (button_callback cfgA 1000 s_twoJobs "42" "voted"
        "abcd1234" []) s_twoJobs).jobs,
      j.id ∈ tracked_job_ids s_twoJobs "42" "p1" → j.removed = true) :=
  C5_voted_cancels_all cfgA 1000 s_twoJobs "42" "abcd1234" "p1" []
    (by with_unfolding_all rfl) _ ⟨true, none⟩ (by with_unfolding_all rfl)

/-! ### Scheduling properties (C2, C7) -/

/-- Both `for` loops of `schedule_reminders` append, to the job queue,
exactly one job per offset whose computed time is not strictly in the
past, in order; the new jobs carry the pair's ids, are pending, and their
ids are appended to the pair's tracking entry. Everything else in the
state is untouched. -/
theorem schedule_loop_spec (cfg : Config) (now : Time) (c : ChatId)
    (p : ProposalId) (sid : String) (mk_when : ℚ → Time)
    (mk_msg : ℚ → String) :
    ∀ (L : List ℚ) (s : BotState),
      ∃ new : List ScheduledJob,
        (schedule_loop cfg now c p sid mk_when mk_msg L s).jobs =
          s.jobs ++ new ∧
        new.map (fun j => j.fire_when) =
          (L.map mk_when).filter (fun t => !decide (t < now)) ∧
        (∀ j ∈ new, j.chat_id = c ∧ j.proposal_id = p ∧ j.removed = false) ∧
        tracked_job_ids (schedule_loop cfg now c p sid mk_when mk_msg L s) c p
          = tracked_job_ids s c p ++ new.map (fun j => j.id) ∧
        (schedule_loop cfg now c p sid mk_when mk_msg L s).preferences =
          s.preferences ∧
        (schedule_loop cfg now c p sid mk_when mk_msg L s).proposal_id_map =
          s.proposal_id_map ∧
        (schedule_loop cfg now c p sid mk_when mk_msg L s).known_proposals =
          s.known_proposals ∧
        (schedule_loop cfg now c p sid mk_when mk_msg L s).sent = s.sent := by
  intro L
  induction L with
  | nil =>
      intro s
      exact ⟨[], by simp [schedule_loop], by simp, by simp,
        by simp [schedule_loop], rfl, rfl, rfl, rfl⟩
  | cons h rest ih =>
      intro s
      by_cases hlt : mk_when h < now
      · have hstep :
            schedule_loop cfg now c p sid mk_when mk_msg (h :: rest) s =
              schedule_loop cfg now c p sid mk_when mk_msg rest s := by
          simp [schedule_loop, hlt]
        obtain ⟨new, h1, h2, h3, h4, h5, h6, h7, h8⟩ := ih s
        rw [hstep]
        refine ⟨new, h1, ?_, h3, h4, h5, h6, h7, h8⟩
        simpa [hlt] using h2
      · have hstep :
            schedule_loop cfg now c p sid mk_when mk_msg (h :: rest) s =
              schedule_loop cfg now c p sid mk_when mk_msg rest
                (track_job
                  (run_once s (mk_when h) c p (mk_msg h)
                    (create_inline_buttons cfg sid)).1 c p
                  (run_once s (mk_when h) c p (mk_msg h)
                    (create_inline_buttons cfg sid)).2) := by
          simp [schedule_loop, hlt]
        obtain ⟨new, h1, h2, h3, h4, h5, h6, h7, h8⟩ :=
          ih (track_job
            (run_once s (mk_when h) c p (mk_msg h)
              (create_inline_buttons cfg sid)).1 c p
            (run_once s (mk_when h) c p (mk_msg h)
              (create_inline_buttons cfg sid)).2)
        rw [hstep]
        refine ⟨({ id := s.next_job_id, chat_id := c, proposal_id := p, fire_when := mk_when h, message_text := mk_msg h, buttons := create_inline_buttons cfg sid, removed := false } : ScheduledJob) :: new, ?_, ?_, ?_, ?_, ?_, ?_, ?_, ?_⟩
        · rw [h1]
          show (s.jobs ++ [_]) ++ new = _
          simp
        · simp only [List.map_cons, List.filter_cons]
          have : (!decide (mk_when h < now)) = true := by simp [hlt]
          rw [this]
          simp only [if_pos]
          rw [h2]
        · intro j hj
          rcases List.mem_cons.mp hj with hj | hj
          · subst hj
            exact ⟨rfl, rfl, rfl⟩
          · exact h3 j hj
        · rw [h4]
          have htr1 : tracked_job_ids
              (track_job
                (run_once s (mk_when h) c p (mk_msg h)
                  (create_inline_buttons cfg sid)).1 c p
                (run_once s (mk_when h) c p (mk_msg h)
                  (create_inline_buttons cfg sid)).2) c p =
              tracked_job_ids s c p ++ [s.next_job_id] :=
            tracked_job_ids_track_job _ c p _
          rw [htr1]
          simp
        · exact h5
        · exact h6
        · exact h7
        · exact h8

/-- `schedule_reminders` succeeds whenever `get_reminder_intervals` does,
resets the pair's tracking entry, and registers exactly one pending job
per computed fire time `start + h` / `end − h` that is not strictly in
the past; the persisted records and the send log are untouched. -/
theorem schedule_reminders_spec (cfg : Config) (now : Time) (s : BotState)
    (c : ChatId) (p : ProposalId) (sid title : String) (st et : Time)
    (pt : String) (fs be : List ℚ)
    (hiv : get_reminder_intervals cfg s.preferences c p = .ok (fs, be)) :
    ∃ (new : List ScheduledJob) (s2 : BotState),
      schedule_reminders cfg now s c p sid title st et pt = .ok s2 ∧
      s2.jobs = s.jobs ++ new ∧
      new.map (fun j => j.fire_when) =
        ((fs.map (fun h => st + 3600 * h)) ++
          (be.map (fun h => et - 3600 * h))).filter
            (fun t => !decide (t < now)) ∧
      (∀ j ∈ new, j.chat_id = c ∧ j.proposal_id = p ∧ j.removed = false) ∧
      tracked_job_ids s2 c p = new.map (fun j => j.id) ∧
      s2.preferences = s.preferences ∧
      s2.proposal_id_map = s.proposal_id_map ∧
      s2.known_proposals = s.known_proposals ∧
      s2.sent = s.sent := by
  have hred : schedule_reminders cfg now s c p sid title st et pt =
      .ok (schedule_loop cfg now c p sid
        (fun h => et - 3600 * h)
        (fun h => end_message_text title p
          (proposal_link cfg p pt) (pyInt (h * 60))) be
        (schedule_loop cfg now c p sid
          (fun h => st + 3600 * h)
          (fun _ => start_message_text title p (proposal_link cfg p pt)) fs
          (reset_pair_jobs s c p))) := by
    simp only [schedule_reminders, hiv]
  obtain ⟨new1, g1, g2, g3, g4, g5, g6, g7, g8⟩ :=
    schedule_loop_spec cfg now c p sid (fun h => st + 3600 * h)
      (fun _ => start_message_text title p (proposal_link cfg p pt)) fs
      (reset_pair_jobs s c p)
  obtain ⟨new2, k1, k2, k3, k4, k5, k6, k7, k8⟩ :=
    schedule_loop_spec cfg now c p sid (fun h => et - 3600 * h)
      (fun h => end_message_text title p
        (proposal_link cfg p pt) (pyInt (h * 60))) be
      (schedule_loop cfg now c p sid (fun h => st + 3600 * h)
        (fun _ => start_message_text title p (proposal_link cfg p pt)) fs
        (reset_pair_jobs s c p))
  refine ⟨new1 ++ new2, _, hred, ?_, ?_, ?_, ?_, ?_, ?_, ?_, ?_⟩
  · rw [k1, g1]
    show (s.jobs ++ new1) ++ new2 = s.jobs ++ (new1 ++ new2)
    simp
  · rw [List.map_append, g2, k2, List.filter_append]
  · intro j hj
    rcases List.mem_append.mp hj with hj | hj
    · exact g3 j hj
    · exact k3 j hj
  · rw [k4, g4, tracked_job_ids_reset]
    simp
  · rw [k5, g5]
    rfl
  · rw [k6, g6]
    rfl
  · rw [k7, g7]
    rfl
  · rw [k8, g8]
    rfl

/-- C2 amended: at scheduling time, an offset whose computed fire time is
strictly less than `now` produces no job, and every other computed time —
including one exactly equal to `now` — produces a job: the times of the
newly registered jobs are exactly the computed times with only the
strictly past ones dropped. -/
theorem C2_only_strictly_past_dropped (cfg : Config) (now : Time)
    (s : BotState) (c : ChatId) (p : ProposalId) (sid title : String)
    (st et : Time) (pt : String) (fs be : List ℚ)
    (hiv : get_reminder_intervals cfg s.preferences c p = .ok (fs, be)) :
    ∀ s2, schedule_reminders cfg now s c p sid title st et pt = .ok s2 →
      (s2.jobs.drop s.jobs.length).map (fun j => j.fire_when) =
        ((fs.map (fun h => st + 3600 * h)) ++
          (be.map (fun h => et - 3600 * h))).filter
            (fun t => !decide (t < now)) ∧
      (∀ t ∈ (fs.map (fun h => st + 3600 * h)) ++
          (be.map (fun h => et - 3600 * h)), t < now →
        t ∉ (s2.jobs.drop s.jobs.length).map (fun j => j.fire_when)) ∧
      (∀ t ∈ (fs.map (fun h => st + 3600 * h)) ++
          (be.map (fun h => et - 3600 * h)), ¬ t < now →
        t ∈ (s2.jobs.drop s.jobs.length).map (fun j => j.fire_when)) := by
  intro s2 hok
  obtain ⟨new, s2x, hok2, hjobs, htimes, _, _, _, _, _, _⟩ :=
    schedule_reminders_spec cfg now s c p sid title st et pt fs be hiv
  rw [hok2] at hok
  injection hok with hok
  subst hok
  have hdrop : s2x.jobs.drop s.jobs.length = new := by
    rw [hjobs]
    exact List.drop_left _ _
  refine ⟨?_, ?_, ?_⟩
  · rw [hdrop]
    exact htimes
  · intro t _ hlt hmem
    rw [hdrop, htimes] at hmem
    have := (List.mem_filter.mp hmem).2
    simp [hlt] at this
  · intro t ht hnlt
    rw [hdrop, htimes]
    exact List.mem_filter.mpr ⟨ht, by simp [hnlt]⟩

/-- C2 witness: offsets `from_start = [0]` with `start = now = 1000`: the
computed time equals `now`, is not strictly past, and yields the one
registered job at time 1000. -/
theorem C2_only_strictly_past_dropped_witness :
    (((okState (schedule_reminders cfgA 1000 s_empty "42" "p1" "abcd1234"
        "T" 1000 2000 "snapshot") s_empty).jobs.drop
          s_empty.jobs.length).map (fun j => j.fire_when) =
      ((([0] : List ℚ).map (fun h => 1000 + 3600 * h)) ++
        (([] : List ℚ).map (fun h => 2000 - 3600 * h))).filter
          (fun t => !decide (t < 1000))) ∧
    (∀ t ∈ (([0] : List ℚ).map (fun h => (1000 : ℚ) + 3600 * h)) ++
        (([] : List ℚ).map (fun h => (2000 : ℚ) - 3600 * h)), t < 1000 →
      t ∉ ((okState (schedule_reminders cfgA 1000 s_empty "42" "p1"
        "abcd1234" "T" 1000 2000 "snapshot") s_empty).jobs.drop
          s_empty.jobs.length).map (fun j => j.fire_when)) ∧
    (∀ t ∈ (([0] : List ℚ).map (fun h => (1000 : ℚ) + 3600 * h)) ++
        (([] : List ℚ).map (fun h => (2000 : ℚ) - 3600 * h)), ¬ t < 1000 →
      t ∈ ((okState (schedule_reminders cfgA 1000 s_empty "42" "p1"
        "abcd1234" "T" 1000 2000 "snapshot") s_empty).jobs.drop
          s_empty.jobs.length).map (fun j => j.fire_when)) :=
  C2_only_strictly_past_dropped cfgA 1000 s_empty "42" "p1" "abcd1234" "T"
    1000 2000 "snapshot" [0] [] (by with_unfolding_all rfl) _
    (by with_unfolding_all rfl)

/-- C7 amended: on first scheduling for a pair, the registered fire times
are exactly `\x7bstart + h\x7d ∪ \x7bend − h\x7d` with only the strictly
past times dropped (a time equal to `now` is kept), one pending job per
remaining computed time, all tracked for the pair. -/
theorem C7_registered_fire_times (cfg : Config) (now : Time) (s : BotState)
    (c : ChatId) (p : ProposalId) (sid title : String) (st et : Time)
    (pt : String) (fs be : List ℚ)
    (hiv : get_reminder_intervals cfg s.preferences c p = .ok (fs, be)) :
    ∀ s2, schedule_reminders cfg now s c p sid title st et pt = .ok s2 →
      ∃ new : List ScheduledJob,
        s2.jobs = s.jobs ++ new ∧
        new.map (fun j => j.fire_when) =
          ((fs.map (fun h => st + 3600 * h)) ++
            (be.map (fun h => et - 3600 * h))).filter
              (fun t => !decide (t < now)) ∧
        (∀ j ∈ new, j.chat_id = c ∧ j.proposal_id = p ∧ j.removed = false) ∧
        tracked_job_ids s2 c p = new.map (fun j => j.id) ∧
        new.length =
          (((fs.map (fun h => st + 3600 * h)) ++
            (be.map (fun h => et - 3600 * h))).filter
              (fun t => !decide (t < now))).length := by
  intro s2 hok
  obtain ⟨new, s2x, hok2, hjobs, htimes, hprops, htracked, _, _, _, _⟩ :=
    schedule_reminders_spec cfg now s c p sid title st et pt fs be hiv
  rw [hok2] at hok
  injection hok with hok
  subst hok
  refine ⟨new, hjobs, htimes, hprops, htracked, ?_⟩
  rw [← htimes]
  exact (List.length_map _ _).symm

/-- C7 witness: offsets `\x7b1, 2\x7d` from start, `start = T = 0`, both
computed times strictly in the future at `now = 0` — exactly two jobs are
registered, at `T+1h = 3600` and `T+2h = 7200`, matching the claim's
instance. -/
theorem C7_registered_fire_times_witness :
    (∃ new : List ScheduledJob,
      (okState (schedule_reminders cfgB 0 s_empty "42" "p1" "abcd1234" "T"
          0 1000000 "snapshot") s_empty).jobs = s_empty.jobs ++ new ∧
      new.map (fun j => j.fire_when) =
        ((([1, 2] : List ℚ).map (fun h => 0 + 3600 * h)) ++
          (([] : List ℚ).map (fun h => 1000000 - 3600 * h))).filter
            (fun t => !decide (t < 0)) ∧
      (∀ j ∈ new, j.chat_id = "42" ∧ j.proposal_id = "p1" ∧
        j.removed = false) ∧
      tracked_job_ids (okState (schedule_reminders cfgB 0 s_empty "42" "p1"
          "abcd1234" "T" 0 1000000 "snapshot") s_empty) "42" "p1" =
        new.map (fun j => j.id) ∧
      new.length =
        (((([1, 2] : List ℚ).map (fun h => 0 + 3600 * h)) ++
          (([] : List ℚ).map (fun h => 1000000 - 3600 * h))).filter
            (fun t => !decide (t < 0))).length) ∧
    (okState (schedule_reminders cfgB 0 s_empty "42" "p1" "abcd1234" "T" 0
        1000000 "snapshot") s_empty).jobs.map (fun j => j.fire_when) =
      [3600, 7200] :=
  ⟨C7_registered_fire_times cfgB 0 s_empty "42" "p1" "abcd1234" "T" 0
      1000000 "snapshot" [1, 2] [] (by with_unfolding_all rfl) _
      (by with_unfolding_all rfl),
   by with_unfolding_all rfl⟩

/-! ### Snooze properties (C1) -/

/-- C1 amended: the "remind me in H hours" interaction persists the new
reminder time `now + H` and registers exactly one new pending job at that
time for the pair — but it does not cancel the pair's existing jobs: the
new job is appended to the tracked list, and the pair afterwards has one
more live job than before, not exactly one. (The id-freshness hypotheses
hold in every reachable state: the allocator only counts up.) -/
theorem C1_remind_in_appends_one_job (cfg : Config) (now : Time)
    (s : BotState) (chat_id : ChatId) (short_id : String) (pid : ProposalId)
    (H : ℚ) (ps : List ℚ)
    (hshort : short_to_proposal_id s.proposal_id_map short_id = some pid)
    (hjobs : ∀ j ∈ s.jobs, j.id < s.next_job_id)
    (htracked : ∀ jid ∈ tracked_job_ids s chat_id pid,
      jid < s.next_job_id) :
    ∀ s2 res,
      button_callback cfg now s chat_id "remind_in" short_id (H :: ps) =
        .ok (s2, res) →
      alookup2 s2.preferences chat_id pid =
        some (.remindAt (now + 3600 * H)) ∧
      (∃ j : ScheduledJob, s2.jobs = s.jobs ++ [j] ∧
        j.fire_when = now + 3600 * H ∧ j.removed = false ∧
        j.id = s.next_job_id) ∧
      tracked_job_ids s2 chat_id pid =
        tracked_job_ids s chat_id pid ++ [s.next_job_id] ∧
      live_job_ids s2 chat_id pid =
        live_job_ids s chat_id pid ++ [s.next_job_id] ∧
      (live_job_ids s2 chat_id pid).length =
        (live_job_ids s chat_id pid).length + 1 := by
  intro s2 res hok
  have hne : ¬("remind_in" = "voted") := by decide
  simp only [button_callback, hshort, if_neg hne, if_pos rfl, if_true,
    eq_self_iff_true] at hok
  have hs2 : s2 = send_message
      (track_job
        (run_once
          { s with preferences := set_pref s.preferences chat_id pid (.remindAt (now + 3600 * H)) }
          (now + 3600 * H) chat_id pid (remind_in_message_text pid)
          (create_inline_buttons cfg short_id)).1 chat_id pid
        (run_once
          { s with preferences := set_pref s.preferences chat_id pid (.remindAt (now + 3600 * H)) }
          (now + 3600 * H) chat_id pid (remind_in_message_text pid)
          (create_inline_buttons cfg short_id)).2) chat_id
      ("<b>Reminder set</b> for " ++ ratStr H ++ " hours from now.") := by
    cases hok
    rfl
  have hjobs2 : s2.jobs = s.jobs ++
      [({ id := s.next_job_id, chat_id := chat_id, proposal_id := pid, fire_when := now + 3600 * H, message_text := remind_in_message_text pid, buttons := create_inline_buttons cfg short_id, removed := false } : ScheduledJob)] := by
    rw [hs2]
    rfl
  have htr2 : tracked_job_ids s2 chat_id pid =
      tracked_job_ids s chat_id pid ++ [s.next_job_id] := by
    rw [hs2]
    exact tracked_job_ids_track_job _ chat_id pid _
  have hfescape : ∀ jid, jid < s.next_job_id →
      can_fire s2 jid = can_fire s jid := by
    intro jid hjid
    unfold can_fire
    rw [hjobs2, List.find?_append]
    have h1 : List.find? (fun x => x.id == jid)
        [({ id := s.next_job_id, chat_id := chat_id, proposal_id := pid, fire_when := now + 3600 * H, message_text := remind_in_message_text pid, buttons := create_inline_buttons cfg short_id, removed := false } : ScheduledJob)] = none := by
      have hneq : (s.next_job_id == jid) = false := by
        simp only [beq_eq_false_iff_ne]
        omega
      simp [List.find?, hneq]
    rw [h1, Option.or_none]
  have hcfnew : can_fire s2 s.next_job_id = true := by
    unfold can_fire
    rw [hjobs2, List.find?_append]
    have h0 : s.jobs.find? (fun x => x.id == s.next_job_id) = none := by
      apply List.find?_eq_none.mpr
      intro x hx
      have := hjobs x hx
      simp only [beq_iff_eq]
      omega
    rw [h0]
    simp [List.find?]
  have hlive : live_job_ids s2 chat_id pid =
      live_job_ids s chat_id pid ++ [s.next_job_id] := by
    unfold live_job_ids
    rw [htr2, List.filter_append]
    congr 1
    · exact List.filter_congr (fun jid hjid =>
        hfescape jid (htracked jid hjid))
    · simp [List.filter, hcfnew]
  refine ⟨?_, ?_, htr2, hlive, ?_⟩
  · rw [hs2]
    exact alookup2_set_pref_self s.preferences chat_id pid _
  · exact ⟨_, hjobs2, rfl, rfl, rfl⟩
  · rw [hlive]
    simp

/-- C1 witness: in `s_twoJobs` (two live jobs for the pair), snoozing by
2 hours at `now = 1000` persists `remindAt 8200`, appends job id 2, and
leaves three live jobs — one more than before. -/
theorem C1_remind_in_appends_one_job_witness :
    alookup2 (okStateCb (button_callback cfgA 1000 s_twoJobs "42"
        "remind_in" "abcd1234" [2]) s_twoJobs).preferences "42" "p1" =
      some (.remindAt (1000 + 3600 * 2)) ∧
    (∃ j : ScheduledJob,
      (okStateCb (button_callback cfgA 1000 s_twoJobs "42" "remind_in"
          "abcd1234" [2]) s_twoJobs).jobs = s_twoJobs.jobs ++ [j] ∧
      j.fire_when = 1000 + 3600 * 2 ∧ j.removed = false ∧
      j.id = s_twoJobs.next_job_id) ∧
    tracked_job_ids (okStateCb (button_callback cfgA 1000 s_twoJobs "42"
        "remind_in" "abcd1234" [2]) s_twoJobs) "42" "p1" =
      tracked_job_ids s_twoJobs "42" "p1" ++ [s_twoJobs.next_job_id] ∧
    live_job_ids (okStateCb (button_callback cfgA 1000 s_twoJobs "42"
        "remind_in" "abcd1234" [2]) s_twoJobs) "42" "p1" =
      live_job_ids s_twoJobs "42" "p1" ++ [s_twoJobs.next_job_id] ∧
    (live_job_ids (okStateCb (button_callback cfgA 1000 s_twoJobs "42"
        "remind_in" "abcd1234" [2]) s_twoJobs) "42" "p1").length =
      (live_job_ids s_twoJobs "42" "p1").length + 1 :=
  C1_remind_in_appends_one_job cfgA 1000 s_twoJobs "42" "abcd1234" "p1" 2 []
    (by with_unfolding_all rfl) (by decide) (by decide) _ ⟨true, none⟩
    (by with_unfolding_all rfl)

/-! ### Dispatcher properties (C3, C4) -/

/-- A successful `schedule_reminders` run changes neither persisted record
nor the send log. -/
theorem schedule_reminders_frame (cfg : Config) (now : Time) (s : BotState)
    (c : ChatId) (p : ProposalId) (sid title : String) (st et : Time)
    (pt : String) :
    ∀ s2, schedule_reminders cfg now s c p sid title st et pt = .ok s2 →
      s2.preferences = s.preferences ∧
      s2.proposal_id_map = s.proposal_id_map ∧
      s2.known_proposals = s.known_proposals ∧
      s2.sent = s.sent := by
  intro s2 hok
  cases hiv : get_reminder_intervals cfg s.preferences c p with
  | error e =>
      have hred : schedule_reminders cfg now s c p sid title st et pt =
          .error e := by
        simp only [schedule_reminders, hiv]
      rw [hred] at hok
      simp at hok
  | ok iv =>
      obtain ⟨fs, be⟩ := iv
      obtain ⟨new, s2x, hok2, _, _, _, _, hp, hm, hk, hs⟩ :=
        schedule_reminders_spec cfg now s c p sid title st et pt fs be hiv
      rw [hok2] at hok
      injection hok with h
      subst h
      exact ⟨hp, hm, hk, hs⟩

/-- The per-chat loop of `handle_new_proposal` never touches the persisted
records or the send log (it only creates jobs). -/
theorem handle_loop_frame (cfg : Config) (now : Time) (p : ProposalId)
    (sid title : String) (st et : Time) (pt : String) :
    ∀ (chats : List ChatId) (prefs : Preferences) (s : BotState)
      (r : Preferences × BotState),
      handle_loop cfg now p sid title st et pt chats prefs s = .ok r →
      r.2.preferences = s.preferences ∧
      r.2.proposal_id_map = s.proposal_id_map ∧
      r.2.known_proposals = s.known_proposals ∧
      r.2.sent = s.sent := by
  intro chats
  induction chats with
  | nil =>
      intro prefs s r hok
      simp only [handle_loop] at hok
      injection hok with h
      subst h
      exact ⟨rfl, rfl, rfl, rfl⟩
  | cons chat rest ih =>
      intro prefs s r hok
      cases h2 : alookup ((alookup prefs chat).getD []) p with
      | some v =>
          have hred : handle_loop cfg now p sid title st et pt
              (chat :: rest) prefs s =
              handle_loop cfg now p sid title st et pt rest prefs s := by
            simp only [handle_loop, h2]
          rw [hred] at hok
          exact ih prefs s r hok
      | none =>
          cases hs9 : schedule_reminders cfg now s chat p sid title st et
              pt with
          | error e =>
              have hred : handle_loop cfg now p sid title st et pt
                  (chat :: rest) prefs s = .error e := by
                simp only [handle_loop, h2, hs9]
              rw [hred] at hok
              simp at hok
          | ok s9 =>
              have hred : handle_loop cfg now p sid title st et pt
                  (chat :: rest) prefs s =
                  handle_loop cfg now p sid title st et pt rest
                    (aupdate prefs chat
                      (aupdate ((alookup prefs chat).getD []) p .null))
                    s9 := by
                simp only [handle_loop, h2, hs9]
              rw [hred] at hok
              obtain ⟨f1, f2, f3, f4⟩ := schedule_reminders_frame cfg now s
                chat p sid title st et pt s9 hs9
              obtain ⟨g1, g2, g3, g4⟩ := ih _ s9 r hok
              exact ⟨g1.trans f1, g2.trans f2, g3.trans f3, g4.trans f4⟩

/-- When every iterated chat already has an entry for the proposal, the
loop does nothing at all. -/
theorem handle_loop_skip_all (cfg : Config) (now : Time) (p : ProposalId)
    (sid title : String) (st et : Time) (pt : String) :
    ∀ (chats : List ChatId) (prefs : Preferences) (s : BotState),
      (∀ c ∈ chats, (alookup ((alookup prefs c).getD []) p).isSome) →
      handle_loop cfg now p sid title st et pt chats prefs s =
        .ok (prefs, s) := by
  intro chats
  induction chats with
  | nil =>
      intro prefs s _
      simp [handle_loop]
  | cons chat rest ih =>
      intro prefs s hall
      have h1 := hall chat (List.mem_cons_self _ _)
      cases h2 : alookup ((alookup prefs chat).getD []) p with
      | none =>
          rw [h2] at h1
          simp at h1
      | some v =>
          have hred : handle_loop cfg now p sid title st et pt
              (chat :: rest) prefs s =
              handle_loop cfg now p sid title st et pt rest prefs s := by
            simp only [handle_loop, h2]
          rw [hred]
          exact ih prefs s (fun c hc => hall c (List.mem_cons_of_mem _ hc))

/-- C4: the proposal-id → short-id mapping is written exactly once. If the
map already holds a short id for the proposal, handling it again leaves
the whole map unchanged and still resolves to that stored short id; on
the first handling the fresh short id is stored, and every existing
mapping is preserved. -/
theorem C4_short_id_assigned_once (cfg : Config) (now : Time)
    (fresh : String) (s : BotState) (pid : ProposalId) (title : String)
    (st et : Time) (pt : String) :
    (∀ sid, alookup s.proposal_id_map pid = some sid →
      ∀ s2, handle_new_proposal cfg now fresh s pid title st et pt =
          .ok s2 →
        s2.proposal_id_map = s.proposal_id_map ∧
        alookup s2.proposal_id_map pid = some sid) ∧
    (alookup s.proposal_id_map pid = none →
      ∀ s2, handle_new_proposal cfg now fresh s pid title st et pt =
          .ok s2 →
        s2.proposal_id_map = aupdate s.proposal_id_map pid fresh ∧
        alookup s2.proposal_id_map pid = some fresh ∧
        (∀ pid2 sid2, alookup s.proposal_id_map pid2 = some sid2 →
          alookup s2.proposal_id_map pid2 = some sid2)) := by
  constructor
  · intro sid hm s2 hok
    cases hl : handle_loop cfg now pid sid title st et pt
        (s.preferences.map Prod.fst) s.preferences
        { s with proposal_id_map := s.proposal_id_map } with
    | error e =>
        have hred : handle_new_proposal cfg now fresh s pid title st et pt =
            .error e := by
          simp only [handle_new_proposal, hm, hl]
        rw [hred] at hok
        simp at hok
    | ok r =>
        have hred : handle_new_proposal cfg now fresh s pid title st et pt =
            .ok { r.2 with preferences := r.1 } := by
          simp only [handle_new_proposal, hm, hl]
        rw [hred] at hok
        injection hok with h
        subst h
        obtain ⟨_, f2, _, _⟩ := handle_loop_frame cfg now pid sid title st
          et pt (s.preferences.map Prod.fst) s.preferences _ r hl
        have hmap : ({ r.2 with preferences := r.1 } : BotState).proposal_id_map
            = s.proposal_id_map := f2
        exact ⟨hmap, by rw [hmap]; exact hm⟩
  · intro hm s2 hok
    cases hl : handle_loop cfg now pid fresh title st et pt
        (s.preferences.map Prod.fst) s.preferences
        { s with proposal_id_map := aupdate s.proposal_id_map pid fresh } with
    | error e =>
        have hred : handle_new_proposal cfg now fresh s pid title st et pt =
            .error e := by
          simp only [handle_new_proposal, hm, hl]
        rw [hred] at hok
        simp at hok
    | ok r =>
        have hred : handle_new_proposal cfg now fresh s pid title st et pt =
            .ok { r.2 with preferences := r.1 } := by
          simp only [handle_new_proposal, hm, hl]
        rw [hred] at hok
        injection hok with h
        subst h
        obtain ⟨_, f2, _, _⟩ := handle_loop_frame cfg now pid fresh title st
          et pt (s.preferences.map Prod.fst) s.preferences _ r hl
        have hmap : ({ r.2 with preferences := r.1 } : BotState).proposal_id_map
            = aupdate s.proposal_id_map pid fresh := f2
        refine ⟨hmap, by rw [hmap]; exact alookup_aupdate_self _ _ _, ?_⟩
        intro pid2 sid2 h2
        rw [hmap]
        by_cases hpe : pid2 = pid
        · subst hpe
          rw [hm] at h2
          simp at h2
        · rw [alookup_aupdate_ne _ _ _ _ hpe]
          exact h2

/-- C4 witness: re-handling the already-mapped `"p1"` keeps the map and
still resolves to `"abcd1234"`; first handling of the unmapped `"p9"`
stores the fresh short id. -/
theorem C4_short_id_assigned_once_witness :
    ((okState (handle_new_proposal cfgA 1000 "ffff0000" s_twoJobs "p1" "T"
        5000 9000 "snapshot") s_twoJobs).proposal_id_map =
      s_twoJobs.proposal_id_map ∧
    alookup (okState (handle_new_proposal cfgA 1000 "ffff0000" s_twoJobs
        "p1" "T" 5000 9000 "snapshot") s_twoJobs).proposal_id_map "p1" =
      some "abcd1234") ∧
    ((okState (handle_new_proposal cfgA 1000 "eeee5555" s_empty "p9" "T"
        5000 9000 "snapshot") s_empty).proposal_id_map =
      aupdate s_empty.proposal_id_map "p9" "eeee5555" ∧
    alookup (okState (handle_new_proposal cfgA 1000 "eeee5555" s_empty
        "p9" "T" 5000 9000 "snapshot") s_empty).proposal_id_map "p9" =
      some "eeee5555" ∧
    (∀ pid2 sid2, alookup s_empty.proposal_id_map pid2 = some sid2 →
      alookup (okState (handle_new_proposal cfgA 1000 "eeee5555" s_empty
        "p9" "T" 5000 9000 "snapshot") s_empty).proposal_id_map pid2 =
        some sid2)) :=
  ⟨(C4_short_id_assigned_once cfgA 1000 "ffff0000" s_twoJobs "p1" "T" 5000
      9000 "snapshot").1 "abcd1234" (by with_unfolding_all rfl) _
      (by with_unfolding_all rfl),
   (C4_short_id_assigned_once cfgA 1000 "eeee5555" s_empty "p9" "T" 5000
      9000 "snapshot").2 (by with_unfolding_all rfl) _
      (by with_unfolding_all rfl)⟩

/-- C3 amended: the off-chain (Snapshot) path deduplicates: re-delivering
a known proposal id is a strict no-op. The on-chain path has no known-set
check, but re-invoking the handler is a no-op provided the short id is
already mapped and every registered chat already has an entry for the
proposal — i.e. provided no new subscriber registered in between (the
counterexample shows the claim fails otherwise). -/
theorem C3_second_delivery_no_op :
    (∀ (cfg : Config) (now : Time) (fresh : String) (s : BotState)
      (pid : ProposalId) (title : String) (st et : Time),
      pid ∈ s.known_proposals →
      process_snapshot_event cfg now fresh s pid title st et = .ok s) ∧
    (∀ (cfg : Config) (now : Time) (fresh : String) (s : BotState)
      (pid : ProposalId) (veb cb : Int) (sid : String),
      alookup s.proposal_id_map pid = some sid →
      (∀ c ∈ s.preferences.map Prod.fst,
        (alookup ((alookup s.preferences c).getD []) pid).isSome) →
      process_onchain_event cfg now fresh s pid veb cb = .ok s) := by
  constructor
  · intro cfg now fresh s pid title st et hknown
    simp [process_snapshot_event, hknown]
  · intro cfg now fresh s pid veb cb sid hm hall
    have hl := handle_loop_skip_all cfg now pid sid
      ("On-Chain Proposal " ++ pid) now (now + ((veb - cb : Int) : ℚ) * 12)
      "on-chain" (s.preferences.map Prod.fst) s.preferences
      { s with proposal_id_map := s.proposal_id_map } hall
    have hred : handle_new_proposal cfg now fresh s pid
        ("On-Chain Proposal " ++ pid) now (now + ((veb - cb : Int) : ℚ) * 12)
        "on-chain" = .ok s := by
      simp only [handle_new_proposal, hm, hl]
    exact hred

/-- C3 witness: a known Snapshot proposal is skipped outright, and an
on-chain re-delivery with an unchanged subscriber table is a no-op. -/
theorem C3_second_delivery_no_op_witness :
    process_snapshot_event cfgA 1000 "ffff0000" s_twoJobs "p1" "T" 0 9000 =
      .ok s_twoJobs ∧
    process_onchain_event cfgA 1000 "ffff0000" s_twoJobs "p1" 100 50 =
      .ok s_twoJobs :=
  ⟨C3_second_delivery_no_op.1 cfgA 1000 "ffff0000" s_twoJobs "p1" "T" 0
      9000 (by decide),
   C3_second_delivery_no_op.2 cfgA 1000 "ffff0000" s_twoJobs "p1" 100 50
      "abcd1234" (by with_unfolding_all rfl) (by decide)⟩

end GovBot
